/-
Verification of the junior-debug backend's core pipeline (prompt builder,
provider dispatcher, response normalizer) against its specification.

The Python sources are shallowly embedded: Python `str` is modelled as
`List Char` (named `Str`), Python `None`-able values as `Option`, and the
side-effect-free fragments of `app/services/prompt_builder.py`,
`app/services/ai_service.py` and `app/routers/analyze.py` as total Lean
functions.  Points where the embedding makes a modelling choice are noted
next to the definition they concern.
-/
import Mathlib

set_option maxRecDepth 20000

namespace JuniorDebug

/-- Python strings are modelled as lists of characters. -/
abbrev Str := List Char

/-! ## Python string primitives used by the sources -/

/-- Python's substring test `needle in hay` (non-empty or empty needle). -/
def pyIn (needle : Str) : Str → Bool
  | [] => needle.isEmpty
  | c :: t => needle.isPrefixOf (c :: t) || pyIn needle t

/-- Python's `str.lower()`.  The sources only lower ASCII provider/error
text, so ASCII lowering (`Char.toLower`) is an adequate model. -/
def pyLower (s : Str) : Str := s.map Char.toLower

/-- The whitespace characters stripped by Python's `str.strip()`. -/
def pyIsSpace (c : Char) : Bool :=
  c = ' ' || c = '\t' || c = '\n' || c = '\r' || c = '\x0b' || c = '\x0c'

/-- Python's `str.strip()`: drop whitespace from both ends. -/
def pyStrip (s : Str) : Str :=
  ((s.dropWhile pyIsSpace).reverse.dropWhile pyIsSpace).reverse

/-- Python's `str.startswith(pre)`. -/
def pyStartswith (s pre : Str) : Bool := pre.isPrefixOf s

/-- Index of the first occurrence of `needle` in a string, if any
(the engine behind Python's `find` and `split`). -/
def findSub (needle : Str) : Str → Option Nat
  | [] => if needle.isPrefixOf ([] : Str) then some 0 else none
  | c :: rest =>
    if needle.isPrefixOf (c :: rest) then some 0
    else (findSub needle rest).map (· + 1)

/-- Fuel-indexed body of Python's `str.split(sep)` for a non-empty `sep`:
split on each non-overlapping occurrence, left to right.  The fuel is
only a termination device; `pySplit` supplies enough of it. -/
def pySplitAux (sep : Str) : Nat → Str → List Str
  | 0, s => [s]
  | fuel + 1, s =>
    match findSub sep s with
    | none => [s]
    | some i => s.take i :: pySplitAux sep fuel (s.drop (i + sep.length))

/-- Python's `str.split(sep)` for a non-empty separator. -/
def pySplit (sep s : Str) : List Str := pySplitAux sep (s.length + 1) s

/-- Python's `s.find(c)` for a single character: first index or `-1`. -/
def pyFindCharIdx (c : Char) (s : Str) : Int :=
  match List.findIdx? (fun x => x = c) s with
  | some i => (i : Int)
  | none => -1

/-- Python's `s.rfind(c)` for a single character: last index or `-1`. -/
def pyRFindCharIdx (c : Char) (s : Str) : Int :=
  match List.findIdx? (fun x => x = c) s.reverse with
  | some i => (s.length : Int) - 1 - (i : Int)
  | none => -1

/-- Python's `a or b` for an optional string `a` and default `b`
(`None` and the empty string are falsy). -/
def pyOrStr (a : Option Str) (b : Str) : Str :=
  match a with
  | none => b
  | some s => if s = [] then b else s

/-! ## Data model (`app/models/schemas.py`) -/

/-- `Explanation` from `app/models/schemas.py`. -/
structure Explanation where
  title : Str
  description : Str
deriving DecidableEq, Repr

/-- `AnalyzeResponse` from `app/models/schemas.py` (the spec's
`AnalysisResult`): revised code plus titled explanations. -/
structure AnalyzeResponse where
  code : Str
  explanations : List Explanation
deriving DecidableEq, Repr

/-- The closed `TaskType` literal set from `app/models/schemas.py`. -/
inductive TaskType where
  | debug
  | refactor
  | debugRefactor
  | performance
  | comments
deriving DecidableEq, Repr

/-- The string literal naming each task id. -/
def TaskType.id : TaskType → Str
  | .debug => "debug".data
  | .refactor => "refactor".data
  | .debugRefactor => "debug-refactor".data
  | .performance => "performance".data
  | .comments => "comments".data

/-- The closed `Language` literal set from `app/models/schemas.py`. -/
inductive Language where
  | javascript
  | typescript
  | python
  | php
  | html
  | css
  | java
  | csharp
  | go
  | rust
deriving DecidableEq, Repr

/-- The string literal naming each language. -/
def Language.id : Language → Str
  | .javascript => "javascript".data
  | .typescript => "typescript".data
  | .python => "python".data
  | .php => "php".data
  | .html => "html".data
  | .css => "css".data
  | .java => "java".data
  | .csharp => "csharp".data
  | .go => "go".data
  | .rust => "rust".data

/-! ## Prompt builder (`app/services/prompt_builder.py`) -/

/-- `PromptBuilder._get_task_description`: the intent phrase per task. -/
def get_task_description : TaskType → Str
  | .debug => "identify and fix bugs, syntax errors, and logical issues".data
  | .refactor =>
      "improve code structure, readability, and maintainability without changing functionality".data
  | .debugRefactor =>
      "first fix any bugs, then improve the code structure and readability".data
  | .performance =>
      "optimize the code for better performance while maintaining correctness".data
  | .comments =>
      "add comprehensive comments and documentation to explain the code".data

/-- `PromptBuilder._get_task_specific_instructions`. -/
def get_task_specific_instructions : TaskType → Str
  | .debug =>
      "Focus on finding and fixing syntax errors, logical bugs, and runtime issues.".data
  | .refactor =>
      "Improve variable names, function structure, and code organization.".data
  | .debugRefactor =>
      "First ensure the code works correctly, then make it cleaner and more maintainable.".data
  | .performance =>
      "Look for algorithmic improvements, reduce unnecessary operations, and optimize loops.".data
  | .comments =>
      "Add JSDoc/docstring comments, inline explanations, and usage examples.".data

/-- Literal template text of `build_prompt` before the first `{language}`. -/
def promptA : Str :=
  "Act as a senior software engineer with extensive experience in ".data

/-- Literal template text between the first `{language}` and the task's
intent phrase. -/
def promptB : Str :=
  " development.\n\nYou are helping a junior developer debug and improve their code. Your task is to ".data

/-- Literal template text between the intent phrase and the second
`{language}` (the constraints block). -/
def promptC : Str :=
  ".\n\nIMPORTANT CONSTRAINTS:\n- Keep original function names unless they are clearly wrong\n- Do not exceed 50 lines of code in your response\n- Provide clear, educational explanations\n- Focus on best practices for ".data

/-- Literal template text opening the code fence. -/
def promptD : Str := "\n\nCODE TO ANALYZE:\n``` ".data

/-- Newline between the fence header and the code blob. -/
def promptE : Str := "\n".data

/-- The part of the `build_prompt` f-string template before the code blob. -/
def promptHead (task : TaskType) (language : Language) : Str :=
  promptA ++ language.id ++ promptB ++ get_task_description task
    ++ promptC ++ language.id ++ promptD ++ language.id ++ promptE

/-- Literal template text closing the code fence. -/
def promptF : Str := "\n```\n\n".data

/-- Literal template text after the task-specific instructions (the JSON
format example and the closing directive). -/
def promptG : Str :=
  "\n\nReturn your response in the following JSON format:\n\x7b\n  \"code\": \"the improved code here\",\n  \"explanations\": [\n    \x7b\n      \"title\": \"Brief title of the change\",\n      \"description\": \"Detailed explanation of why this change was made\"\n    \x7d\n  ]\n\x7d\n\nEnsure the code is properly formatted and functional.".data

/-- The part of the `build_prompt` f-string template after the code blob. -/
def promptTail (task : TaskType) : Str :=
  promptF ++ get_task_specific_instructions task ++ promptG

/-- `PromptBuilder.build_prompt`: the f-string template instantiated with
the language, the task's intent phrase, the code blob and the task's
instruction suffix, in source order. -/
def build_prompt (code : Str) (task : TaskType) (language : Language) : Str :=
  promptHead task language ++ code ++ promptTail task

/-- The synonym table of `PromptBuilder.map_description_to_task`. -/
def synonymMap : List (Str × TaskType) :=
  [("find and fix errors".data, .debug),
   ("find and fix error".data, .debug),
   ("find and fix bugs".data, .debug),
   ("improve structure".data, .refactor),
   ("improve structure and readability".data, .refactor),
   ("full cleanup".data, .debugRefactor),
   ("optimize speed".data, .performance),
   ("optimize performance".data, .performance),
   ("add comments".data, .comments),
   ("document code".data, .comments),
   ("document the code".data, .comments)]

/-- First-match lookup in an association list (Python `dict.get`; the
table has distinct keys, so first match and last match agree). -/
def lookupSyn (k : Str) : List (Str × TaskType) → Option TaskType
  | [] => none
  | (k', v) :: rest => if k = k' then some v else lookupSyn k rest

/-- `PromptBuilder.map_description_to_task`: trim and lowercase, pass a
literal task id through, otherwise consult the synonym table. -/
def map_description_to_task (description : Str) : Option TaskType :=
  if description = [] then none
  else
    let key := pyLower (pyStrip description)
    if key = "debug".data then some .debug
    else if key = "refactor".data then some .refactor
    else if key = "debug-refactor".data then some .debugRefactor
    else if key = "performance".data then some .performance
    else if key = "comments".data then some .comments
    else lookupSyn key synonymMap

/-! ## Provider dispatcher (`app/services/ai_service.py`) -/

/-- `AIService._select_best_model`: a single branch on prompt length. -/
def select_best_model (prompt : Str) : Str :=
  if prompt.length > 2000 then "gemini-pro-latest".data
  else "gemini-flash-latest".data

/-- The closed failure taxonomy of the spec (§7) realised by the
dispatcher's error mapping. -/
inductive FailureClass where
  | quota_exceeded
  | credential_rejected
  | provider_error
deriving DecidableEq, Repr

/-- The `except` block of `AIService._call_gemini`: classify a provider
error message and build the `RuntimeError` text that is re-raised
(an unmatched message is re-raised unchanged). -/
def gemini_error_result (e : Str) : FailureClass × Str :=
  let m := pyLower e
  if pyIn "quota".data m || pyIn "rate limit".data m then
    (.quota_exceeded, "Gemini quota exceeded: ".data ++ e)
  else if pyIn "leak".data m || pyIn "leaked".data m
      || pyIn "reported as leaked".data m || pyIn "reported".data m
      || pyIn "unauthorized".data m then
    (.credential_rejected, "Gemini API key invalid or reported as leaked: ".data ++ e)
  else
    (.provider_error, e)

/-- The `except` block of `AIService._call_openai` (note: credential
markers are checked before quota markers here). -/
def openai_error_result (e : Str) : FailureClass × Str :=
  let m := pyLower e
  if pyIn "invalid".data m || pyIn "unauthorized".data m then
    (.credential_rejected, "OpenAI API key invalid or leaked: ".data ++ e)
  else if pyIn "quota".data m || pyIn "rate limit".data m then
    (.quota_exceeded, "OpenAI quota exceeded: ".data ++ e)
  else
    (.provider_error, e)

/-- The backend configuration visible to `AIService.analyze_code`. -/
structure Settings where
  GEMINI_API_KEY : Str
  OPENAI_API_KEY : Str
deriving Repr

/-- What `AIService.analyze_code` does before (or instead of) the real
network call: return a mock response, reach a provider call, or raise a
`ValueError`. -/
inductive DispatchOutcome where
  | mockResponse (r : AnalyzeResponse)
  | geminiCall (model : Str) (key : Str)
  | openaiCall (model : Str) (key : Str)
  | valueError (msg : Str)
deriving DecidableEq, Repr

/-- The mock `AnalyzeResponse` built by `AIService._call_gemini` when no
usable key is configured.  The Python conditional expression binds as
`(marker + prompt.split("```")[1].split("```")[0]) if "```" in prompt
else "// Mock response"`.  The `[1]`/`[0]` indexings are modelled with
`getD`; the `[1]` access is guarded by the `in` test, under which the
split always has at least two parts. -/
def gemini_mock_response (prompt : Str) : AnalyzeResponse :=
  { code :=
      if pyIn "```".data prompt then
        "// Mock response: Please set a valid Gemini API key\n".data
          ++ ((pySplit "```".data ((pySplit "```".data prompt).getD 1 [])).getD 0 [])
      else "// Mock response".data
    explanations :=
      [{ title := "Mock Response".data
         description := "This is a mock response because no valid Gemini API key is configured. Please set GEMINI_API_KEY in your .env file.".data }] }

/-- The key/library guard at the top of `AIService._call_gemini`. -/
def call_gemini_pre (genaiAvailable : Bool) (prompt model api_key : Str) : DispatchOutcome :=
  if api_key = [] || pyStartswith api_key "your_".data || !genaiAvailable then
    .mockResponse (gemini_mock_response prompt)
  else
    .geminiCall model api_key

/-- The library guard at the top of `AIService._call_openai`. -/
def call_openai_pre (openaiAvailable : Bool) (model api_key : Str) : DispatchOutcome :=
  if !openaiAvailable then .valueError "OpenAI library not installed".data
  else .openaiCall model api_key

/-- `AIService.analyze_code` up to the provider call: resolve `auto`,
route on the model string, resolve the credential, and apply the
per-adapter guards.  `genaiAvailable`/`openaiAvailable` model whether the
optional client libraries imported. -/
def analyze_code_dispatch (st : Settings) (genaiAvailable openaiAvailable : Bool)
    (prompt : Str) (model : Str) (api_key : Option Str) : DispatchOutcome :=
  let model := if model = "auto".data then select_best_model prompt else model
  if model = "gemini-pro-latest".data ∨ model = "gemini-flash-latest".data then
    call_gemini_pre genaiAvailable prompt model (pyOrStr api_key st.GEMINI_API_KEY)
  else if model = "gpt-4".data ∨ model = "gpt-4o".data ∨ model = "gpt-4o-mini".data then
    let key := pyOrStr api_key st.OPENAI_API_KEY
    if key = [] then .valueError "OpenAI API key not configured".data
    else call_openai_pre openaiAvailable model key
  else
    .valueError ("Unsupported model: ".data ++ model)

/-! ## Router error mapping (`app/routers/analyze.py`) -/

/-- The `except RuntimeError` arm of the `/analyze` route: the HTTP
status and user-visible detail produced from a raised provider error. -/
def map_runtime_error_to_http (e : Str) : Nat × Str :=
  let msg := pyLower e
  if pyIn "quota".data msg || pyIn "rate limit".data msg then
    (429, "AI provider quota exceeded: please try again later or rotate your key".data)
  else if pyIn "leak".data msg || pyIn "leaked".data msg || pyIn "reported".data msg
      || pyIn "invalid".data msg || pyIn "unauthorized".data msg then
    (403, "AI provider key invalid or reported as leaked. Please rotate the key.".data)
  else
    (502, "AI provider error: ".data ++ e)

/-! ## A model of Python's `json.loads` (used by `_parse_ai_response`)

`json` is standard-library code, not repository code; the model below
follows the grammar CPython's strict decoder accepts: objects with
string keys, arrays, strings with the standard escapes, numbers (plus
the `NaN`/`Infinity`/`-Infinity` constants), `true`/`false`/`null`, and
nothing after the top-level value but whitespace.  Numeric tokens are
kept raw (their value never reaches an `AnalyzeResponse`).  One
modelling divergence: a lone UTF-16 surrogate in a `\uXXXX` escape,
which CPython keeps as an unpaired surrogate, is replaced by U+FFFD
(Lean's `Char` cannot hold a lone surrogate); no claim depends on it. -/

/-- JSON values. -/
inductive JVal where
  | jnull : JVal
  | jbool : Bool → JVal
  | jnum : Str → JVal
  | jstr : Str → JVal
  | jarr : List JVal → JVal
  | jobj : List (Str × JVal) → JVal
deriving Repr

/-- The whitespace skipped between JSON tokens (` `, tab, LF, CR). -/
def jsonWs (c : Char) : Bool :=
  c = ' ' || c = '\t' || c = '\n' || c = '\r'

/-- Skip inter-token whitespace. -/
def skipWs (s : Str) : Str := s.dropWhile jsonWs

/-- Value of a hexadecimal digit. -/
def hexVal (c : Char) : Option Nat :=
  if '0' ≤ c ∧ c ≤ '9' then some (c.toNat - 48)
  else if 'a' ≤ c ∧ c ≤ 'f' then some (c.toNat - 87)
  else if 'A' ≤ c ∧ c ≤ 'F' then some (c.toNat - 55)
  else none

/-- Parse the body of a JSON string (the opening quote already
consumed); returns the decoded content and the rest of the input after
the closing quote.  Control characters below U+0020 are rejected
(strict mode), as are unknown escapes. -/
def parseStringBody : Nat → Str → Option (Str × Str)
  | 0, _ => none
  | _, [] => none
  | fuel + 1, c :: rest =>
    if c = '"' then some ([], rest)
    else if c = '\\' then
      match rest with
      | [] => none
      | e :: rest2 =>
        if e = '"' then (parseStringBody fuel rest2).map (fun p => ('"' :: p.1, p.2))
        else if e = '\\' then (parseStringBody fuel rest2).map (fun p => ('\\' :: p.1, p.2))
        else if e = '/' then (parseStringBody fuel rest2).map (fun p => ('/' :: p.1, p.2))
        else if e = 'b' then (parseStringBody fuel rest2).map (fun p => ('\x08' :: p.1, p.2))
        else if e = 'f' then (parseStringBody fuel rest2).map (fun p => ('\x0c' :: p.1, p.2))
        else if e = 'n' then (parseStringBody fuel rest2).map (fun p => ('\n' :: p.1, p.2))
        else if e = 'r' then (parseStringBody fuel rest2).map (fun p => ('\r' :: p.1, p.2))
        else if e = 't' then (parseStringBody fuel rest2).map (fun p => ('\t' :: p.1, p.2))
        else if e = 'u' then
          match rest2 with
          | h1 :: h2 :: h3 :: h4 :: rest3 =>
            match hexVal h1, hexVal h2, hexVal h3, hexVal h4 with
            | some a, some b, some c2, some d =>
              let code := ((a * 16 + b) * 16 + c2) * 16 + d
              if 0xD800 ≤ code ∧ code ≤ 0xDBFF then
                match rest3 with
                | '\\' :: 'u' :: g1 :: g2 :: g3 :: g4 :: rest4 =>
                  match hexVal g1, hexVal g2, hexVal g3, hexVal g4 with
                  | some a2, some b2, some c3, some d2 =>
                    let lo := ((a2 * 16 + b2) * 16 + c3) * 16 + d2
                    if 0xDC00 ≤ lo ∧ lo ≤ 0xDFFF then
                      let cp := 0x10000 + (code - 0xD800) * 0x400 + (lo - 0xDC00)
                      (parseStringBody fuel rest4).map (fun p => (Char.ofNat cp :: p.1, p.2))
                    else
                      (parseStringBody fuel rest3).map (fun p => ('�' :: p.1, p.2))
                  | _, _, _, _ =>
                    (parseStringBody fuel rest3).map (fun p => ('�' :: p.1, p.2))
                | _ =>
                  (parseStringBody fuel rest3).map (fun p => ('�' :: p.1, p.2))
              else if 0xDC00 ≤ code ∧ code ≤ 0xDFFF then
                (parseStringBody fuel rest3).map (fun p => ('�' :: p.1, p.2))
              else
                (parseStringBody fuel rest3).map (fun p => (Char.ofNat code :: p.1, p.2))
            | _, _, _, _ => none
          | _ => none
        else none
    else if c.toNat < 0x20 then none
    else (parseStringBody fuel rest).map (fun p => (c :: p.1, p.2))

/-- Decimal digit test. -/
def isDigitCh (c : Char) : Bool := '0' ≤ c && c ≤ '9'

/-- The integer part of the JSON number grammar: `0 | [1-9][0-9]*`. -/
def numIntPart : Str → Option (Str × Str)
  | '0' :: t => some (['0'], t)
  | c :: t =>
    if isDigitCh c then some (c :: t.takeWhile isDigitCh, t.dropWhile isDigitCh)
    else none
  | [] => none

/-- The optional fraction part `(\.[0-9]+)?`; consumes nothing when the
dot is not followed by a digit (regex backtracking). -/
def numFracPart : Str → Str × Str
  | '.' :: t =>
    if t.takeWhile isDigitCh = [] then ([], '.' :: t)
    else ('.' :: t.takeWhile isDigitCh, t.dropWhile isDigitCh)
  | u => ([], u)

/-- The optional exponent part `([eE][+-]?[0-9]+)?`; consumes nothing
when no digits follow. -/
def numExpPart : Str → Str × Str
  | e :: t =>
    if e = 'e' ∨ e = 'E' then
      match t with
      | c :: u =>
        if c = '+' ∨ c = '-' then
          if u.takeWhile isDigitCh = [] then ([], e :: t)
          else (e :: c :: u.takeWhile isDigitCh, u.dropWhile isDigitCh)
        else
          if t.takeWhile isDigitCh = [] then ([], e :: t)
          else (e :: t.takeWhile isDigitCh, t.dropWhile isDigitCh)
      | [] => ([], [e])
    else ([], e :: t)
  | [] => ([], [])

/-- The JSON number token `-?(0|[1-9][0-9]*)(\.[0-9]+)?([eE][+-]?[0-9]+)?`. -/
def parseNumberToken (s : Str) : Option (Str × Str) :=
  let withInt :=
    match s with
    | '-' :: t => (numIntPart t).map (fun p => ('-' :: p.1, p.2))
    | _ => numIntPart s
  match withInt with
  | none => none
  | some (ip, r1) =>
    let (fp, r2) := numFracPart r1
    let (ep, r3) := numExpPart r2
    some (ip ++ fp ++ ep, r3)

mutual

/-- Parse one JSON value at the head of the input (no leading
whitespace); returns the value and the unconsumed rest. -/
def parseValue : Nat → Str → Option (JVal × Str)
  | 0, _ => none
  | fuel + 1, s =>
    match s with
    | [] => none
    | '"' :: rest =>
      (parseStringBody (rest.length + 1) rest).map (fun p => (JVal.jstr p.1, p.2))
    | '{' :: rest =>
      (match skipWs rest with
       | '}' :: r => some (JVal.jobj [], r)
       | '"' :: r => parseMembers fuel r []
       | _ => none)
    | '[' :: rest =>
      (match skipWs rest with
       | ']' :: r => some (JVal.jarr [], r)
       | s2 => parseElements fuel s2 [])
    | _ =>
      if "null".data.isPrefixOf s then some (.jnull, s.drop 4)
      else if "true".data.isPrefixOf s then some (.jbool true, s.drop 4)
      else if "false".data.isPrefixOf s then some (.jbool false, s.drop 5)
      else
        match parseNumberToken s with
        | some (tok, rest) => some (.jnum tok, rest)
        | none =>
          if "NaN".data.isPrefixOf s then some (.jnum "NaN".data, s.drop 3)
          else if "Infinity".data.isPrefixOf s then some (.jnum "Infinity".data, s.drop 8)
          else if "-Infinity".data.isPrefixOf s then some (.jnum "-Infinity".data, s.drop 9)
          else none

/-- Parse the members of an object, positioned just after the opening
quote of the next key; `acc` holds the members already read. -/
def parseMembers : Nat → Str → List (Str × JVal) → Option (JVal × Str)
  | 0, _, _ => none
  | fuel + 1, s, acc =>
    match parseStringBody (s.length + 1) s with
    | none => none
    | some (key, r1) =>
      match skipWs r1 with
      | ':' :: r2 =>
        (match parseValue fuel (skipWs r2) with
         | none => none
         | some (v, r3) =>
           match skipWs r3 with
           | ',' :: r4 =>
             (match skipWs r4 with
              | '"' :: r5 => parseMembers fuel r5 (acc ++ [(key, v)])
              | _ => none)
           | '}' :: r4 => some (.jobj (acc ++ [(key, v)]), r4)
           | _ => none)
      | _ => none

/-- Parse the elements of a (non-empty) array, positioned at the first
character of the next element. -/
def parseElements : Nat → Str → List JVal → Option (JVal × Str)
  | 0, _, _ => none
  | fuel + 1, s, acc =>
    match parseValue fuel s with
    | none => none
    | some (v, r1) =>
      match skipWs r1 with
      | ',' :: r2 => parseElements fuel (skipWs r2) (acc ++ [v])
      | ']' :: r2 => some (.jarr (acc ++ [v]), r2)
      | _ => none

end

/-- Python's `json.loads`: parse the whole input as one JSON value,
allowing only whitespace around it. -/
def json_loads (s : Str) : Option JVal :=
  match parseValue (s.length + 1) (skipWs s) with
  | some (v, rest) => if skipWs rest = [] then some v else none
  | none => none

/-! ## Pydantic validation of the parsed value -/

/-- Lookup in parsed object members with Python `dict` semantics: a
duplicated key keeps its last value. -/
def jLookup (key : Str) : List (Str × JVal) → Option JVal
  | [] => none
  | (k, v) :: rest =>
    match jLookup key rest with
    | some v' => some v'
    | none => if k = key then some v else none

/-- Validation of one explanation entry (`Explanation(**item)`): a JSON
object with string `title` and `description`; extra keys are ignored. -/
def explanationOfJson : JVal → Option Explanation
  | .jobj kvs =>
    (match jLookup "title".data kvs, jLookup "description".data kvs with
     | some (.jstr t), some (.jstr d) => some { title := t, description := d }
     | _, _ => none)
  | _ => none

/-- Validation of `AnalyzeResponse(**data)`: a JSON object with a string
`code` and a list `explanations` of valid explanation entries; extra
keys are ignored; anything else raises (modelled as `none`). -/
def analyzeResponseOfJson : JVal → Option AnalyzeResponse
  | .jobj kvs =>
    (match jLookup "code".data kvs, jLookup "explanations".data kvs with
     | some (.jstr c), some (.jarr xs) =>
       (match xs.mapM explanationOfJson with
        | some es => some { code := c, explanations := es }
        | none => none)
     | _, _ => none)
  | _ => none

/-- `try_parse_json_segment` inside `_parse_ai_response`: `json.loads`
followed by `AnalyzeResponse(**data)`, any exception giving `None`. -/
def try_parse_json_segment (s : Str) : Option AnalyzeResponse :=
  match json_loads s with
  | some v => analyzeResponseOfJson v
  | none => none

/-! ## Response normalizer (`AIService._parse_ai_response`) -/

/-- The inner loop of the brace scan: starting from a position whose
suffix is the argument, track the nesting depth (`+1` at `{`, `-1` at
`}`) and return the length of the candidate ending at the first return
to depth zero, if the depth ever returns to zero. -/
def findCandidateLen : Str → Int → Nat → Option Nat
  | [], _, _ => none
  | c :: rest, depth, len =>
    if c = '{' then findCandidateLen rest (depth + 1) (len + 1)
    else if c = '}' then
      (if depth - 1 = 0 then some (len + 1) else findCandidateLen rest (depth - 1) (len + 1))
    else findCandidateLen rest depth (len + 1)

/-- The outer loop of the brace scan: walk the text left to right; at
each `{`, try the single balanced candidate starting there (when the
depth returns to zero) and return the first successful parse; a failed
candidate moves on to the next `{` (the source's `break`). -/
def scanFrom : Str → Option AnalyzeResponse
  | [] => none
  | c :: rest =>
    if c = '{' then
      match findCandidateLen (c :: rest) 0 0 with
      | some len =>
        (match try_parse_json_segment ((c :: rest).take len) with
         | some r => some r
         | none => scanFrom rest)
      | none => scanFrom rest
    else scanFrom rest

/-- The final heuristic of `_parse_ai_response`: the greedy span from
the first `{` to the last `}` (Python `find`/`rfind` with `-1` for
absence, and the guard `start != -1 and end != -1 and end > start`). -/
def lastResort (s : Str) : Option AnalyzeResponse :=
  let start := pyFindCharIdx '{' s
  let stop := pyRFindCharIdx '}' s + 1
  if start ≠ -1 ∧ stop ≠ -1 ∧ stop > start then
    try_parse_json_segment ((s.drop start.toNat).take (stop - start).toNat)
  else none

/-- The fallback `AnalyzeResponse` returned when every parse fails. -/
def errorWrapResponse (s : Str) : AnalyzeResponse :=
  { code := "// Error parsing AI response\n".data ++ s
    explanations :=
      [{ title := "AI Response Error".data
         description := "Could not parse the AI response as JSON. Please check model output or prompt formatting.".data }] }

/-- `AIService._parse_ai_response`: whole-text parse, then balanced-brace
candidates in order of starting position, then the greedy span, then the
error-wrapping fallback.  (`content or ""` maps `None` to the empty
string.) -/
def parse_ai_response (content : Option Str) : AnalyzeResponse :=
  let content_str := content.getD []
  match try_parse_json_segment content_str with
  | some parsed => parsed
  | none =>
    match scanFrom content_str with
    | some parsed => parsed
    | none =>
      match lastResort content_str with
      | some parsed => parsed
      | none => errorWrapResponse content_str

/-- Occurrence count of a pattern in a string (all starting positions);
used to state the spec's "contains ... exactly once". -/
def countOcc (needle : Str) : Str → Nat
  | [] => 0
  | c :: t => (if needle.isPrefixOf (c :: t) then 1 else 0) + countOcc needle t

/-! ## Helper lemmas -/

theorem isPrefixOf_append_right (n : Str) :
    ∀ (s t : Str), n.isPrefixOf s = true → n.isPrefixOf (s ++ t) = true := by
  induction n with
  | nil => intro s t _; cases s <;> simp [List.isPrefixOf]
  | cons c m ih =>
    intro s t h
    cases s with
    | nil => simp [List.isPrefixOf] at h
    | cons a s' =>
      simp only [List.isPrefixOf, Bool.and_eq_true] at h
      simp only [List.cons_append, List.isPrefixOf, Bool.and_eq_true]
      exact ⟨h.1, ih s' t h.2⟩

theorem pyIn_iff_substring (n : Str) : ∀ (h : Str), pyIn n h = true ↔ n <:+: h := by
  intro h
  induction h with
  | nil =>
    simp only [pyIn, List.isEmpty_iff, List.infix_nil]
  | cons c t ih =>
    simp only [pyIn, Bool.or_eq_true, List.infix_cons_iff, ih,
      List.isPrefixOf_iff_prefix]

theorem pyIn_eq_findSub_isSome (n : Str) : ∀ (s : Str), pyIn n s = (findSub n s).isSome := by
  intro s
  induction s with
  | nil =>
    by_cases h : n.isPrefixOf ([] : Str) = true
    · simp only [pyIn, findSub, if_pos h, Option.isSome_some]
      cases n with
      | nil => rfl
      | cons a b => simp [List.isPrefixOf] at h
    · simp only [pyIn, findSub, if_neg h, Option.isSome_none]
      cases n with
      | nil => simp [List.isPrefixOf] at h
      | cons a b => rfl
  | cons c t ih =>
    by_cases h : n.isPrefixOf (c :: t) = true
    · simp [pyIn, findSub, h]
    · simp [pyIn, findSub, h, ih]

theorem isPrefixOf_nil_right (c : Char) (m : Str) :
    (c :: m).isPrefixOf ([] : Str) = false := rfl

theorem findSub_isPrefixOf_drop (n : Str) :
    ∀ (s : Str) (i : Nat), findSub n s = some i → n.isPrefixOf (s.drop i) = true := by
  intro s
  induction s with
  | nil =>
    intro i h
    simp only [findSub] at h
    by_cases hp : n.isPrefixOf ([] : Str) = true
    · rw [if_pos hp] at h
      cases h
      simpa using hp
    · rw [if_neg hp] at h
      cases h
  | cons c t ih =>
    intro i h
    simp only [findSub] at h
    by_cases hp : n.isPrefixOf (c :: t) = true
    · rw [if_pos hp] at h
      cases h
      simpa using hp
    · rw [if_neg hp] at h
      cases hft : findSub n t with
      | none => rw [hft] at h; cases h
      | some j =>
        rw [hft] at h
        simp only [Option.map_some'] at h
        cases h
        simpa using ih j hft

theorem findSub_append_exists_le (n : Str) :
    ∀ (a b : Str) (j : Nat), findSub n a = some j →
      ∃ j', findSub n (a ++ b) = some j' ∧ j' ≤ j := by
  intro a
  induction a with
  | nil =>
    intro b j h
    simp only [findSub] at h
    by_cases hp : n.isPrefixOf ([] : Str) = true
    · rw [if_pos hp] at h
      cases h
      have hn : n = [] := by
        cases n with
        | nil => rfl
        | cons x y => rw [isPrefixOf_nil_right] at hp; cases hp
      subst hn
      refine ⟨0, ?_, Nat.le_refl 0⟩
      cases b with
      | nil => rfl
      | cons x y =>
        simp only [List.nil_append, findSub]
        rw [if_pos (by rfl)]
    · rw [if_neg hp] at h; cases h
  | cons c t ih =>
    intro b j h
    simp only [findSub] at h
    by_cases hp : n.isPrefixOf (c :: t) = true
    · rw [if_pos hp] at h
      cases h
      refine ⟨0, ?_, Nat.le_refl 0⟩
      have hp' : n.isPrefixOf (c :: (t ++ b)) = true := by
        have h2 := isPrefixOf_append_right n (c :: t) b hp
        simpa using h2
      simp only [List.cons_append, findSub, List.append_eq]
      rw [if_pos hp']
    · rw [if_neg hp] at h
      cases hft : findSub n t with
      | none => rw [hft] at h; cases h
      | some j0 =>
        rw [hft] at h
        simp only [Option.map_some'] at h
        cases h
        obtain ⟨j', hj', hle⟩ := ih b j0 hft
        by_cases hp2 : n.isPrefixOf (c :: (t ++ b)) = true
        · refine ⟨0, ?_, Nat.zero_le _⟩
          simp only [List.cons_append, findSub, List.append_eq]
          rw [if_pos hp2]
        · refine ⟨j' + 1, ?_, Nat.succ_le_succ hle⟩
          simp only [List.cons_append, findSub, List.append_eq]
          rw [if_neg hp2, hj']
          rfl

theorem findSub_lt_length (n : Str) (hn : n ≠ []) :
    ∀ (s : Str) (i : Nat), findSub n s = some i → i < s.length := by
  intro s i h
  have hp := findSub_isPrefixOf_drop n s i h
  by_contra hge
  push_neg at hge
  rw [List.drop_eq_nil_iff.mpr hge] at hp
  cases n with
  | nil => exact hn rfl
  | cons x y => simp [List.isPrefixOf] at hp

theorem findSub_front_none (n : Str) (hn : n ≠ []) (a b : Str)
    (h : findSub n (a ++ b) = some a.length) : findSub n a = none := by
  cases hfa : findSub n a with
  | none => rfl
  | some j =>
    exfalso
    have hjlt : j < a.length := findSub_lt_length n hn a j hfa
    obtain ⟨j', hj', hle⟩ := findSub_append_exists_le n a b j hfa
    rw [h] at hj'
    cases hj'
    omega

theorem findSub_nil_ne_none (sep : Str) (hsep : sep ≠ []) :
    findSub sep ([] : Str) = none := by
  cases sep with
  | nil => exact absurd rfl hsep
  | cons x y =>
    simp only [findSub]
    rw [if_neg (by rw [isPrefixOf_nil_right]; exact Bool.false_ne_true)]

theorem drop_occurrence_shorter (sep : Str) (hsep : sep ≠ []) (s : Str) (i : Nat)
    (h : findSub sep s = some i) : (s.drop (i + sep.length)).length < s.length := by
  have hne : s ≠ [] := by
    intro h0
    subst h0
    rw [findSub_nil_ne_none sep hsep] at h
    cases h
  rw [List.length_drop]
  have h1 : 1 ≤ sep.length := by
    cases sep with
    | nil => exact absurd rfl hsep
    | cons x y => simp
  have h2 : 1 ≤ s.length := by
    cases s with
    | nil => exact absurd rfl hne
    | cons x y => simp
  omega

theorem pySplitAux_fuel (sep : Str) (hsep : sep ≠ []) :
    ∀ (fuel : Nat) (s : Str), s.length < fuel → pySplitAux sep fuel s = pySplit sep s := by
  intro fuel
  induction fuel using Nat.strong_induction_on with
  | _ f ih =>
    intro s hs
    cases f with
    | zero => omega
    | succ f' =>
      cases hfs : findSub sep s with
      | none =>
        simp [pySplit, pySplitAux, hfs]
      | some i =>
        have hlen := drop_occurrence_shorter sep hsep s i hfs
        have e1 : pySplitAux sep (f' + 1) s
            = s.take i :: pySplitAux sep f' (s.drop (i + sep.length)) := by
          simp [pySplitAux, hfs]
        have e2 : pySplit sep s
            = s.take i :: pySplitAux sep s.length (s.drop (i + sep.length)) := by
          simp [pySplit, pySplitAux, hfs]
        rw [e1, e2, ih f' (by omega) _ (by omega),
          ih s.length (by omega) _ (by omega)]

theorem pySplit_cons (sep : Str) (hsep : sep ≠ []) (s : Str) (i : Nat)
    (h : findSub sep s = some i) :
    pySplit sep s = s.take i :: pySplit sep (s.drop (i + sep.length)) := by
  have e : pySplit sep s
      = s.take i :: pySplitAux sep s.length (s.drop (i + sep.length)) := by
    simp [pySplit, pySplitAux, h]
  have hlen := drop_occurrence_shorter sep hsep s i h
  rw [e, pySplitAux_fuel sep hsep s.length _ hlen]

theorem pySplit_single (sep s : Str) (h : findSub sep s = none) :
    pySplit sep s = [s] := by
  simp [pySplit, pySplitAux, h]

theorem findCandidateLen_append (b : Str) :
    ∀ (a : Str) (d : Int) (n m : Nat),
      findCandidateLen a d n = some m → findCandidateLen (a ++ b) d n = some m := by
  intro a
  induction a with
  | nil => intro d n m h; simp [findCandidateLen] at h
  | cons c rest ih =>
    intro d n m h
    simp only [findCandidateLen] at h
    simp only [List.cons_append, findCandidateLen]
    by_cases hc : c = '{'
    · rw [if_pos hc] at h ⊢
      exact ih _ _ _ h
    · rw [if_neg hc] at h ⊢
      by_cases hc2 : c = '}'
      · rw [if_pos hc2] at h ⊢
        by_cases hd : d - 1 = 0
        · rw [if_pos hd] at h ⊢; exact h
        · rw [if_neg hd] at h ⊢; exact ih _ _ _ h
      · rw [if_neg hc2] at h ⊢
        exact ih _ _ _ h

theorem scanFrom_append_no_brace :
    ∀ (p q : Str), '{' ∉ p → scanFrom (p ++ q) = scanFrom q := by
  intro p
  induction p with
  | nil => intro q _; rfl
  | cons c t ih =>
    intro q hp
    have hc : ¬(c = '{') := fun h => hp (h ▸ List.mem_cons_self c t)
    have ht : '{' ∉ t := fun h => hp (List.mem_cons_of_mem c h)
    simp only [List.cons_append, scanFrom, if_neg hc]
    exact ih q ht

theorem dispatch_eq_gemini_branch (st : Settings) (genai openai : Bool)
    (prompt : Str) (api_key : Option Str) (model : Str)
    (h1 : ¬(model = "auto".data))
    (h2 : model = "gemini-pro-latest".data ∨ model = "gemini-flash-latest".data) :
    analyze_code_dispatch st genai openai prompt model api_key
      = call_gemini_pre genai prompt model (pyOrStr api_key st.GEMINI_API_KEY) := by
  simp only [analyze_code_dispatch]
  rw [if_neg h1, if_pos h2]

theorem dispatch_eq_openai_branch (st : Settings) (genai openai : Bool)
    (prompt : Str) (api_key : Option Str) (model : Str)
    (h1 : ¬(model = "auto".data))
    (h2 : ¬(model = "gemini-pro-latest".data ∨ model = "gemini-flash-latest".data))
    (h3 : model = "gpt-4".data ∨ model = "gpt-4o".data ∨ model = "gpt-4o-mini".data) :
    analyze_code_dispatch st genai openai prompt model api_key
      = (if pyOrStr api_key st.OPENAI_API_KEY = []
         then .valueError "OpenAI API key not configured".data
         else call_openai_pre openai model (pyOrStr api_key st.OPENAI_API_KEY)) := by
  simp only [analyze_code_dispatch]
  rw [if_neg h1, if_neg h2, if_pos h3]

/-! ## Claims -/

/-- C4: under the "automatic" selector, model resolution is a single
deterministic branch on prompt length: strictly more than 2000
characters selects the higher-capability variant (`gemini-pro-latest`),
at most 2000 characters selects the faster variant
(`gemini-flash-latest`). -/
theorem c4_auto_model_resolution (prompt : Str) :
    (2000 < prompt.length → select_best_model prompt = "gemini-pro-latest".data) ∧
    (prompt.length ≤ 2000 → select_best_model prompt = "gemini-flash-latest".data) := by
  constructor
  · intro h
    unfold select_best_model
    rw [if_pos h]
  · intro h
    unfold select_best_model
    rw [if_neg (by omega)]

/-- Witness for C4 at the claim's example lengths 2500, 500 and the
boundary 2000. -/
theorem c4_auto_model_resolution_witness :
    select_best_model (List.replicate 2500 'a') = "gemini-pro-latest".data ∧
    select_best_model (List.replicate 500 'a') = "gemini-flash-latest".data ∧
    select_best_model (List.replicate 2000 'a') = "gemini-flash-latest".data :=
  ⟨(c4_auto_model_resolution _).1 (by rw [List.length_replicate]; norm_num),
   (c4_auto_model_resolution _).2 (by rw [List.length_replicate]; norm_num),
   (c4_auto_model_resolution _).2 (by rw [List.length_replicate])⟩

/-- C5: description-to-task resolution trims and lowercases, passes a
literal task id through unchanged, consults the fixed synonym table
otherwise, and reports no match as `none`; in particular the claim's
examples resolve as stated. -/
theorem c5_description_to_task :
    (∀ t : TaskType, map_description_to_task t.id = some t) ∧
    map_description_to_task "Find and fix errors".data = some .debug ∧
    map_description_to_task " find and fix errors ".data = some .debug ∧
    map_description_to_task "FIND AND FIX ERRORS".data = some .debug ∧
    map_description_to_task "Full cleanup".data = some .debugRefactor ∧
    map_description_to_task "".data = none ∧
    map_description_to_task "unknown task".data = none := by
  refine ⟨?_, ?_, ?_, ?_, ?_, ?_, ?_⟩
  · intro t; cases t <;> decide
  all_goals decide

/-- C3 counterexample: the message "invalid key" contains the claimed
credential marker "invalid", yet the Gemini adapter leaves it
unclassified (re-raised as a plain provider error), because the Gemini
marker set does not include "invalid". -/
theorem c3_counterexample_invalid_marker :
    pyIn "invalid".data (pyLower "invalid key".data) = true ∧
    (gemini_error_result "invalid key".data).1 = .provider_error ∧
    (gemini_error_result "invalid key".data).1 ≠ .credential_rejected := by
  decide

/-- C3 (amended): each adapter applies its own case-insensitive marker
sets in its own order.  Gemini: quota/rate-limit first
(`quota_exceeded`), then leak/leaked/reported-as-leaked/reported/
unauthorized (`credential_rejected`), else the original message is
re-raised (`provider_error`).  OpenAI: invalid/unauthorized first
(`credential_rejected`), then quota/rate-limit (`quota_exceeded`), else
`provider_error` with the original message.  The claim's examples
classify as stated under both adapters. -/
theorem c3_failure_classification :
    (∀ e : Str,
      (pyIn "quota".data (pyLower e) || pyIn "rate limit".data (pyLower e)) = true →
      gemini_error_result e = (.quota_exceeded, "Gemini quota exceeded: ".data ++ e)) ∧
    (∀ e : Str,
      (pyIn "quota".data (pyLower e) || pyIn "rate limit".data (pyLower e)) = false →
      (pyIn "leak".data (pyLower e) || pyIn "leaked".data (pyLower e)
        || pyIn "reported as leaked".data (pyLower e) || pyIn "reported".data (pyLower e)
        || pyIn "unauthorized".data (pyLower e)) = true →
      gemini_error_result e
        = (.credential_rejected, "Gemini API key invalid or reported as leaked: ".data ++ e)) ∧
    (∀ e : Str,
      (pyIn "quota".data (pyLower e) || pyIn "rate limit".data (pyLower e)) = false →
      (pyIn "leak".data (pyLower e) || pyIn "leaked".data (pyLower e)
        || pyIn "reported as leaked".data (pyLower e) || pyIn "reported".data (pyLower e)
        || pyIn "unauthorized".data (pyLower e)) = false →
      gemini_error_result e = (.provider_error, e)) ∧
    (∀ e : Str,
      (pyIn "invalid".data (pyLower e) || pyIn "unauthorized".data (pyLower e)) = true →
      openai_error_result e
        = (.credential_rejected, "OpenAI API key invalid or leaked: ".data ++ e)) ∧
    (∀ e : Str,
      (pyIn "invalid".data (pyLower e) || pyIn "unauthorized".data (pyLower e)) = false →
      (pyIn "quota".data (pyLower e) || pyIn "rate limit".data (pyLower e)) = true →
      openai_error_result e = (.quota_exceeded, "OpenAI quota exceeded: ".data ++ e)) ∧
    (∀ e : Str,
      (pyIn "invalid".data (pyLower e) || pyIn "unauthorized".data (pyLower e)) = false →
      (pyIn "quota".data (pyLower e) || pyIn "rate limit".data (pyLower e)) = false →
      openai_error_result e = (.provider_error, e)) ∧
    (gemini_error_result "rate limit exceeded".data).1 = .quota_exceeded ∧
    (openai_error_result "rate limit exceeded".data).1 = .quota_exceeded ∧
    (gemini_error_result "Unauthorized: invalid key".data).1 = .credential_rejected ∧
    (openai_error_result "Unauthorized: invalid key".data).1 = .credential_rejected := by
  refine ⟨?_, ?_, ?_, ?_, ?_, ?_, by decide, by decide, by decide, by decide⟩
  · intro e h
    unfold gemini_error_result
    rw [if_pos h]
  · intro e h1 h2
    unfold gemini_error_result
    rw [if_neg (by rw [h1]; exact Bool.false_ne_true), if_pos h2]
  · intro e h1 h2
    unfold gemini_error_result
    rw [if_neg (by rw [h1]; exact Bool.false_ne_true),
      if_neg (by rw [h2]; exact Bool.false_ne_true)]
  · intro e h
    unfold openai_error_result
    rw [if_pos h]
  · intro e h1 h2
    unfold openai_error_result
    rw [if_neg (by rw [h1]; exact Bool.false_ne_true), if_pos h2]
  · intro e h1 h2
    unfold openai_error_result
    rw [if_neg (by rw [h1]; exact Bool.false_ne_true),
      if_neg (by rw [h2]; exact Bool.false_ne_true)]

/-- Witness for C3 (amended) at concrete messages of each kind. -/
theorem c3_failure_classification_witness :
    gemini_error_result "Rate limit hit".data
      = (.quota_exceeded, "Gemini quota exceeded: ".data ++ "Rate limit hit".data) ∧
    gemini_error_result "key was reported".data
      = (.credential_rejected,
         "Gemini API key invalid or reported as leaked: ".data ++ "key was reported".data) ∧
    gemini_error_result "boom".data = (.provider_error, "boom".data) ∧
    openai_error_result "Invalid token".data
      = (.credential_rejected, "OpenAI API key invalid or leaked: ".data ++ "Invalid token".data) ∧
    openai_error_result "quota gone".data
      = (.quota_exceeded, "OpenAI quota exceeded: ".data ++ "quota gone".data) ∧
    openai_error_result "boom".data = (.provider_error, "boom".data) :=
  ⟨(c3_failure_classification.1) _ (by decide),
   (c3_failure_classification.2.1) _ (by decide) (by decide),
   (c3_failure_classification.2.2.1) _ (by decide) (by decide),
   (c3_failure_classification.2.2.2.1) _ (by decide),
   (c3_failure_classification.2.2.2.2.1) _ (by decide) (by decide),
   (c3_failure_classification.2.2.2.2.2.1) _ (by decide) (by decide)⟩

/-- C9 counterexample: two failures of the same taxonomy kind
(`provider_error`, the 502 fallback) with different provider texts yield
different user-visible messages, and the message embeds the raw provider
error text. -/
theorem c9_counterexample_raw_text_leak :
    (map_runtime_error_to_http "connection reset by peer A".data).1 = 502 ∧
    (map_runtime_error_to_http "connection reset by peer B".data).1 = 502 ∧
    (map_runtime_error_to_http "connection reset by peer A".data).2
      ≠ (map_runtime_error_to_http "connection reset by peer B".data).2 ∧
    pyIn "connection reset by peer A".data
      (map_runtime_error_to_http "connection reset by peer A".data).2 = true := by
  decide

/-- C9 (amended): for `quota_exceeded` (429) and `credential_rejected`
(403) failures the user-visible detail is a fixed generic constant, so
two runs in those kinds always yield the same message; but the
`provider_error` fallback (502) embeds the raw provider error text
("AI provider error: " followed by it), so different provider texts
yield different user-visible messages there. -/
theorem c9_generic_messages (e : Str) :
    ((pyIn "quota".data (pyLower e) || pyIn "rate limit".data (pyLower e)) = true →
      map_runtime_error_to_http e
        = (429, "AI provider quota exceeded: please try again later or rotate your key".data)) ∧
    ((pyIn "quota".data (pyLower e) || pyIn "rate limit".data (pyLower e)) = false →
      (pyIn "leak".data (pyLower e) || pyIn "leaked".data (pyLower e)
        || pyIn "reported".data (pyLower e) || pyIn "invalid".data (pyLower e)
        || pyIn "unauthorized".data (pyLower e)) = true →
      map_runtime_error_to_http e
        = (403, "AI provider key invalid or reported as leaked. Please rotate the key.".data)) ∧
    ((pyIn "quota".data (pyLower e) || pyIn "rate limit".data (pyLower e)) = false →
      (pyIn "leak".data (pyLower e) || pyIn "leaked".data (pyLower e)
        || pyIn "reported".data (pyLower e) || pyIn "invalid".data (pyLower e)
        || pyIn "unauthorized".data (pyLower e)) = false →
      map_runtime_error_to_http e = (502, "AI provider error: ".data ++ e)) := by
  refine ⟨?_, ?_, ?_⟩
  · intro h
    unfold map_runtime_error_to_http
    rw [if_pos h]
  · intro h1 h2
    unfold map_runtime_error_to_http
    rw [if_neg (by rw [h1]; exact Bool.false_ne_true), if_pos h2]
  · intro h1 h2
    unfold map_runtime_error_to_http
    rw [if_neg (by rw [h1]; exact Bool.false_ne_true),
      if_neg (by rw [h2]; exact Bool.false_ne_true)]

/-- Witness for C9 (amended) at one message per branch. -/
theorem c9_generic_messages_witness :
    map_runtime_error_to_http "Rate limit hit".data
      = (429, "AI provider quota exceeded: please try again later or rotate your key".data) ∧
    map_runtime_error_to_http "token invalid".data
      = (403, "AI provider key invalid or reported as leaked. Please rotate the key.".data) ∧
    map_runtime_error_to_http "boom".data = (502, "AI provider error: ".data ++ "boom".data) :=
  ⟨(c9_generic_messages _).1 (by decide),
   (c9_generic_messages _).2.1 (by decide) (by decide),
   (c9_generic_messages _).2.2 (by decide) (by decide)⟩

/-- C10: automatic selection only ever resolves to the two Gemini-family
models, and a dispatch with the `auto` selector never reaches the OpenAI
adapter and never raises (so it never requires an OpenAI credential). -/
theorem c10_auto_is_gemini_only (st : Settings) (genai openai : Bool)
    (prompt : Str) (api_key : Option Str) :
    (select_best_model prompt = "gemini-pro-latest".data ∨
      select_best_model prompt = "gemini-flash-latest".data) ∧
    (∀ m k : Str,
      analyze_code_dispatch st genai openai prompt "auto".data api_key ≠ .openaiCall m k) ∧
    (∀ msg : Str,
      analyze_code_dispatch st genai openai prompt "auto".data api_key ≠ .valueError msg) := by
  have hsel : select_best_model prompt = "gemini-pro-latest".data ∨
      select_best_model prompt = "gemini-flash-latest".data := by
    unfold select_best_model
    by_cases h : prompt.length > 2000
    · left; rw [if_pos h]
    · right; rw [if_neg h]
  have hdisp : analyze_code_dispatch st genai openai prompt "auto".data api_key
      = call_gemini_pre genai prompt (select_best_model prompt)
          (pyOrStr api_key st.GEMINI_API_KEY) := by
    rcases hsel with h | h <;> simp [analyze_code_dispatch, h]
  refine ⟨hsel, ?_, ?_⟩
  · intro m k h
    rw [hdisp] at h
    unfold call_gemini_pre at h
    split at h
    · exact DispatchOutcome.noConfusion h
    · exact DispatchOutcome.noConfusion h
  · intro msg h
    rw [hdisp] at h
    unfold call_gemini_pre at h
    split at h
    · exact DispatchOutcome.noConfusion h
    · exact DispatchOutcome.noConfusion h

/-- Witness for C5 instantiating the literal-id passthrough part at the
task id `debug`. -/
theorem c5_description_to_task_witness :
    map_description_to_task (TaskType.debug).id = some .debug :=
  c5_description_to_task.1 .debug

/-- Witness for C10 at a concrete configuration, prompt and model/key
instantiation. -/
theorem c10_auto_is_gemini_only_witness :
    (select_best_model "x".data = "gemini-pro-latest".data ∨
      select_best_model "x".data = "gemini-flash-latest".data) ∧
    analyze_code_dispatch ⟨[], []⟩ true true "x".data "auto".data none
      ≠ .openaiCall "gpt-4".data "k".data ∧
    analyze_code_dispatch ⟨[], []⟩ true true "x".data "auto".data none
      ≠ .valueError "msg".data :=
  ⟨(c10_auto_is_gemini_only ⟨[], []⟩ true true "x".data none).1,
   (c10_auto_is_gemini_only ⟨[], []⟩ true true "x".data none).2.1 "gpt-4".data "k".data,
   (c10_auto_is_gemini_only ⟨[], []⟩ true true "x".data none).2.2 "msg".data⟩

/-- C7 counterexample: a Gemini-family request with no credential at all
(neither caller-supplied nor configured) does not fail with a
configuration error — it returns the development mock response. -/
theorem c7_counterexample_gemini_no_credential :
    analyze_code_dispatch ⟨[], []⟩ true true "x".data "gemini-flash-latest".data none
      = .mockResponse (gemini_mock_response "x".data) := by
  decide

/-- C7 (amended): only the OpenAI family fails with a configuration
error (`ValueError`, distinct from provider-reported `RuntimeError`s)
when no credential is available, without attempting the call; for the
Gemini family a missing credential instead produces the development mock
response (no provider call either, but no error). -/
theorem c7_missing_credential_policy (st : Settings) (genai openai : Bool)
    (prompt : Str) (api_key : Option Str) (model : Str) :
    ((model = "gpt-4".data ∨ model = "gpt-4o".data ∨ model = "gpt-4o-mini".data) →
      pyOrStr api_key st.OPENAI_API_KEY = [] →
      analyze_code_dispatch st genai openai prompt model api_key
        = .valueError "OpenAI API key not configured".data) ∧
    ((model = "gemini-pro-latest".data ∨ model = "gemini-flash-latest".data) →
      pyOrStr api_key st.GEMINI_API_KEY = [] →
      analyze_code_dispatch st genai openai prompt model api_key
        = .mockResponse (gemini_mock_response prompt)) := by
  constructor
  · intro hm hk
    have hne : ¬(model = "auto".data) := by
      rcases hm with h | h | h <;> subst h <;> decide
    have hng : ¬(model = "gemini-pro-latest".data ∨ model = "gemini-flash-latest".data) := by
      rcases hm with h | h | h <;> subst h <;> decide
    rw [dispatch_eq_openai_branch st genai openai prompt api_key model hne hng hm,
      if_pos hk]
  · intro hm hk
    have hne : ¬(model = "auto".data) := by
      rcases hm with h | h <;> subst h <;> decide
    rw [dispatch_eq_gemini_branch st genai openai prompt api_key model hne hm]
    unfold call_gemini_pre
    rw [hk, if_pos (by simp)]

/-- Witness for C7 (amended): one credential-less dispatch per family. -/
theorem c7_missing_credential_policy_witness :
    analyze_code_dispatch ⟨[], []⟩ true true "p".data "gpt-4".data none
      = .valueError "OpenAI API key not configured".data ∧
    analyze_code_dispatch ⟨[], []⟩ true true "p".data "gemini-pro-latest".data none
      = .mockResponse (gemini_mock_response "p".data) :=
  ⟨(c7_missing_credential_policy ⟨[], []⟩ true true "p".data none "gpt-4".data).1
      (Or.inl rfl) (by decide),
   (c7_missing_credential_policy ⟨[], []⟩ true true "p".data none "gemini-pro-latest".data).2
      (Or.inl rfl) (by decide)⟩

/-- C6 counterexample: the prompt for the code blob `code` contains that
blob as a substring, but not exactly once — the four-character string
`code` occurs six times (the template text itself mentions "code"), so
"contains the literal code verbatim exactly once" fails. -/
theorem c6_counterexample_multiple_occurrences :
    pyIn "code".data (build_prompt "code".data .debug .javascript) = true ∧
    countOcc "code".data (build_prompt "code".data .debug .javascript) = 6 ∧
    ¬(countOcc "code".data (build_prompt "code".data .debug .javascript) = 1) := by
  refine ⟨by decide, by decide, ?_⟩
  intro h
  rw [show countOcc "code".data (build_prompt "code".data .debug .javascript) = 6 from by decide] at h
  cases h

/-- C6 (amended): for every task in the fixed set, every code blob and
every language, the prompt is non-empty, contains the task's intent
phrase, and contains the literal code verbatim, inserted at exactly one
template position (the prompt factors as a code-independent head, the
code, and a code-independent tail); the code's substring-occurrence
count can nevertheless exceed one when the blob collides with template
text, so "exactly once" holds only as the template factorisation, not as
a substring count. -/
theorem c6_prompt_contains_task_and_code (code : Str) (task : TaskType)
    (language : Language) :
    build_prompt code task language
      = promptHead task language ++ code ++ promptTail task ∧
    build_prompt code task language ≠ [] ∧
    pyIn (get_task_description task) (build_prompt code task language) = true ∧
    pyIn code (build_prompt code task language) = true := by
  refine ⟨rfl, ?_, ?_, ?_⟩
  · intro h
    have hlen := congrArg List.length h
    simp only [build_prompt, promptHead, List.length_append, List.length_nil] at hlen
    have hpos : 0 < promptA.length := by decide
    omega
  · rw [pyIn_iff_substring]
    exact ⟨promptA ++ language.id ++ promptB,
      (promptC ++ language.id ++ promptD ++ language.id ++ promptE) ++ code ++ promptTail task,
      by simp [build_prompt, promptHead, List.append_assoc]⟩
  · rw [pyIn_iff_substring]
    exact ⟨promptHead task language, promptTail task,
      by simp [build_prompt, List.append_assoc]⟩

/-- Witness for C6 (amended) at a concrete code blob, task and
language. -/
theorem c6_prompt_contains_task_and_code_witness :
    build_prompt "print(1)".data .debug .python
      = promptHead .debug .python ++ "print(1)".data ++ promptTail .debug ∧
    build_prompt "print(1)".data .debug .python ≠ [] ∧
    pyIn (get_task_description .debug) (build_prompt "print(1)".data .debug .python) = true ∧
    pyIn "print(1)".data (build_prompt "print(1)".data .debug .python) = true :=
  c6_prompt_contains_task_and_code "print(1)".data .debug .python

/-- C8 counterexample: an OpenAI-family dispatch with a recognisable
placeholder credential (it starts with `your_`) does not skip the
network call or synthesize a mock — it proceeds to the real OpenAI call
with the placeholder key. -/
theorem c8_counterexample_openai_placeholder :
    analyze_code_dispatch ⟨[], []⟩ true true "p".data "gpt-4".data
        (some "your_openai_key".data)
      = .openaiCall "gpt-4".data "your_openai_key".data ∧
    pyStartswith "your_openai_key".data "your_".data = true := by
  decide

/-- C8 (amended): the development fallback exists only in the Gemini
adapter: for a Gemini-family dispatch whose resolved credential is
empty, starts with the placeholder marker `your_`, or whose client
library is unavailable, the dispatcher skips the network call and
returns the mock `AnalyzeResponse`; the mock carries exactly the fixed
"Mock Response" explanation; and when the prompt contains a fenced code
block, the mock's code embeds the segment between the first two fences
(the original code).  The OpenAI adapter has no such fallback (see the
counterexample). -/
theorem c8_gemini_dev_fallback :
    (∀ (st : Settings) (genai openai : Bool) (prompt : Str) (api_key : Option Str)
        (model : Str),
      (model = "gemini-pro-latest".data ∨ model = "gemini-flash-latest".data) →
      (pyOrStr api_key st.GEMINI_API_KEY = [] ∨
        pyStartswith (pyOrStr api_key st.GEMINI_API_KEY) "your_".data = true ∨
        genai = false) →
      analyze_code_dispatch st genai openai prompt model api_key
        = .mockResponse (gemini_mock_response prompt)) ∧
    (∀ prompt : Str,
      (gemini_mock_response prompt).explanations
        = [{ title := "Mock Response".data
             description := "This is a mock response because no valid Gemini API key is configured. Please set GEMINI_API_KEY in your .env file.".data }]) ∧
    (∀ pre seg rest : Str,
      findSub "```".data (pre ++ "```".data ++ seg ++ "```".data ++ rest) = some pre.length →
      findSub "```".data (seg ++ "```".data ++ rest) = some seg.length →
      (gemini_mock_response (pre ++ "```".data ++ seg ++ "```".data ++ rest)).code
        = "// Mock response: Please set a valid Gemini API key\n".data ++ seg) := by
  refine ⟨?_, ?_, ?_⟩
  · intro st genai openai prompt api_key model hm hcond
    have hne : ¬(model = "auto".data) := by
      rcases hm with h | h <;> subst h <;> decide
    rw [dispatch_eq_gemini_branch st genai openai prompt api_key model hne hm]
    unfold call_gemini_pre
    rw [if_pos (by rcases hcond with h | h | h <;> simp [h])]
  · intro prompt
    rfl
  · intro pre seg rest h1 h2
    have hfne : ("```".data : Str) ≠ [] := by decide
    have hassoc1 : pre ++ "```".data ++ seg ++ "```".data ++ rest
        = pre ++ ("```".data ++ (seg ++ ("```".data ++ rest))) := by
      simp [List.append_assoc]
    have hassoc2 : pre ++ "```".data ++ seg ++ "```".data ++ rest
        = (pre ++ "```".data) ++ (seg ++ ("```".data ++ rest)) := by
      simp [List.append_assoc]
    have hsplit1 := pySplit_cons "```".data hfne
      (pre ++ "```".data ++ seg ++ "```".data ++ rest) pre.length h1
    have htake1 : (pre ++ "```".data ++ seg ++ "```".data ++ rest).take pre.length = pre := by
      rw [hassoc1]
      exact List.take_left pre _
    have hdrop1 : (pre ++ "```".data ++ seg ++ "```".data ++ rest).drop
        (pre.length + ("```".data).length) = seg ++ "```".data ++ rest := by
      rw [hassoc2, ← List.length_append pre "```".data, List.drop_left]
      simp [List.append_assoc]
    rw [htake1, hdrop1] at hsplit1
    have hsplit2 := pySplit_cons "```".data hfne (seg ++ "```".data ++ rest) seg.length h2
    have htake2 : (seg ++ "```".data ++ rest).take seg.length = seg := by
      rw [List.append_assoc]
      exact List.take_left seg _
    have hdrop2 : (seg ++ "```".data ++ rest).drop (seg.length + ("```".data).length)
        = rest := by
      rw [← List.length_append seg "```".data, List.drop_left]
    rw [htake2, hdrop2] at hsplit2
    have h2' : findSub "```".data (seg ++ ("```".data ++ rest)) = some seg.length := by
      rw [← List.append_assoc]
      exact h2
    have hsegnone : findSub "```".data seg = none :=
      findSub_front_none "```".data hfne seg ("```".data ++ rest) h2'
    have hsplit3 := pySplit_single "```".data seg hsegnone
    have hin : pyIn "```".data (pre ++ "```".data ++ seg ++ "```".data ++ rest) = true := by
      rw [pyIn_eq_findSub_isSome, h1]
      rfl
    simp only [gemini_mock_response]
    rw [if_pos hin, hsplit1, hsplit2]
    simp only [List.getD_cons_succ, List.getD_cons_zero]
    rw [hsplit3]
    simp only [List.getD_cons_zero]

/-- Witness for C8 (amended), combining all three parts at concrete
inputs: a placeholder-keyed Gemini dispatch returns the mock, and on a
fenced prompt the mock embeds the fenced segment. -/
theorem c8_gemini_dev_fallback_witness :
    analyze_code_dispatch ⟨"your_gemini_key".data, []⟩ true true
        ("intro ```abc``` outro".data) "gemini-flash-latest".data none
      = .mockResponse (gemini_mock_response "intro ```abc``` outro".data) ∧
    (gemini_mock_response "intro ```abc``` outro".data).explanations
      = [{ title := "Mock Response".data
           description := "This is a mock response because no valid Gemini API key is configured. Please set GEMINI_API_KEY in your .env file.".data }] ∧
    (gemini_mock_response ("intro ".data ++ "```".data ++ "abc".data ++ "```".data
        ++ " outro".data)).code
      = "// Mock response: Please set a valid Gemini API key\n".data ++ "abc".data :=
  ⟨c8_gemini_dev_fallback.1 ⟨"your_gemini_key".data, []⟩ true true
      ("intro ```abc``` outro".data) none "gemini-flash-latest".data
      (Or.inr rfl) (Or.inr (Or.inl (by decide))),
   c8_gemini_dev_fallback.2.1 _,
   c8_gemini_dev_fallback.2.2 "intro ".data "abc".data " outro".data
      (by decide) (by decide)⟩

/-- C1: the response normalizer is total — in this embedding
`parse_ai_response` is a total function, so it never raises — and
whenever every parse attempt fails (the whole-text parse, every
balanced-brace candidate, and the greedy span), it returns exactly the
fallback whose `code` is the raw text prefixed with the error-marker
comment and whose `explanations` is a single entry flagging the parse
failure. -/
theorem c1_normalizer_fallback (content : Option Str)
    (h1 : try_parse_json_segment (content.getD []) = none)
    (h2 : scanFrom (content.getD []) = none)
    (h3 : lastResort (content.getD []) = none) :
    parse_ai_response content = errorWrapResponse (content.getD []) ∧
    (parse_ai_response content).code
      = "// Error parsing AI response\n".data ++ content.getD [] ∧
    (parse_ai_response content).explanations.length = 1 := by
  have hmain : parse_ai_response content = errorWrapResponse (content.getD []) := by
    simp only [parse_ai_response, h1, h2, h3]
  exact ⟨hmain, by rw [hmain]; rfl, by rw [hmain]; rfl⟩

/-- Witness for C1 at the spec's example `"no json here"` (every parse
attempt fails there). -/
theorem c1_normalizer_fallback_witness :
    parse_ai_response (some "no json here".data)
      = errorWrapResponse "no json here".data ∧
    (parse_ai_response (some "no json here".data)).code
      = "// Error parsing AI response\n".data ++ "no json here".data ∧
    (parse_ai_response (some "no json here".data)).explanations.length = 1 :=
  c1_normalizer_fallback (some "no json here".data) (by decide) (by decide) (by decide)

theorem scanFrom_cons_success (u : Str) (len : Nat) (r : AnalyzeResponse)
    (hb : findCandidateLen ('{' :: u) 0 0 = some len)
    (hp : try_parse_json_segment (('{' :: u).take len) = some r) :
    scanFrom ('{' :: u) = some r := by
  simp [scanFrom, hb, hp]

/-- C2: for raw text made of a brace-free prose prefix, a balanced
well-formed JSON object of the `AnalysisResult` shape whose `code` value
itself contains a `{`/`}` pair, and arbitrary trailing text (which may
hold unrelated braces), and which does not parse whole, the normalizer
does not stop scanning at the inner braces: the balanced candidate at
the object's opening brace is the full object, candidates are tried in
order of starting position, and the first successful parse — the object
itself — is returned. -/
theorem c2_nested_brace_recovery (p u t : Str) (r : AnalyzeResponse)
    (hp : '{' ∉ p)
    (_hbrace : '{' ∈ r.code ∧ '}' ∈ r.code)
    (hfull : try_parse_json_segment ((p ++ ('{' :: u)) ++ t) = none)
    (hbal : findCandidateLen ('{' :: u) 0 0 = some ('{' :: u).length)
    (hparse : try_parse_json_segment ('{' :: u) = some r) :
    parse_ai_response (some ((p ++ ('{' :: u)) ++ t)) = r := by
  have hscan : scanFrom ((p ++ ('{' :: u)) ++ t) = some r := by
    rw [List.append_assoc, scanFrom_append_no_brace p (('{' :: u) ++ t) hp]
    have hb2 : findCandidateLen (('{' :: u) ++ t) 0 0 = some ('{' :: u).length :=
      findCandidateLen_append t ('{' :: u) 0 0 ('{' :: u).length hbal
    have hcons : ('{' :: u) ++ t = '{' :: (u ++ t) := rfl
    rw [hcons] at hb2 ⊢
    apply scanFrom_cons_success (u ++ t) ('{' :: u).length r hb2
    have htake : ('{' :: (u ++ t)).take ('{' :: u).length = '{' :: u := by
      simp only [List.length_cons]
      rw [List.take_succ_cons, List.take_left]
    rw [htake]
    exact hparse
  simp only [parse_ai_response, Option.getD_some, hfull, hscan]

/-- Witness for C2: prose, then the object
`{"code": "a{b}c", "explanations": []}` (whose `code` value holds a
balanced brace pair), then trailing text with an unrelated brace. -/
theorem c2_nested_brace_recovery_witness :
    parse_ai_response (some (("Reply: ".data
        ++ ('{' :: "\"code\": \"a\x7bb\x7dc\", \"explanations\": []\x7d".data))
        ++ " done \x7d".data))
      = { code := "a\x7bb\x7dc".data, explanations := [] } :=
  c2_nested_brace_recovery "Reply: ".data
    "\"code\": \"a\x7bb\x7dc\", \"explanations\": []\x7d".data
    " done \x7d".data
    { code := "a\x7bb\x7dc".data, explanations := [] }
    (by decide) (by decide) (by decide) (by decide) (by decide)

end JuniorDebug
